import Mathlib

/-!
Verification of the embedded OAuth 2.0 authorization server in `server.py`
(memos_mcp). The Python source is shallowly embedded: module-level mutable
dicts become an explicit `Store` record threaded through each handler,
`datetime.utcnow()` and `secrets.token_urlsafe(...)` become explicit
parameters (they are effectful reads), and HTTP handlers become pure
functions from request data and store to a new store and a response.
-/

namespace MemosMcp

/-- JSON values, as produced by Python's `json` module and Starlette's
`JSONResponse`. Objects keep insertion order, as Python dicts do. -/
inductive Json where
  | null : Json
  | bool : Bool → Json
  | num : Int → Json
  | str : String → Json
  | arr : List Json → Json
  | obj : List (String × Json) → Json

/-- Python truthiness (`bool(x)`) on JSON-shaped values: `None`, `False`,
`0`, `""`, `[]` and `{}` are falsy, everything else truthy. -/
def jsonTruthy : Json → Bool
  | .null => false
  | .bool b => b
  | .num n => n != 0
  | .str s => !s.isEmpty
  | .arr l => !l.isEmpty
  | .obj l => !l.isEmpty

/-- Association-list model of a Python `dict`: `d.get(k)`. -/
def dget {α : Type} (l : List (String × α)) (k : String) : Option α :=
  match l with
  | [] => none
  | (k', v) :: t => if k' = k then some v else dget t k

/-- `d.get(k)` on a JSON object (`None`, i.e. `none`, when the key is absent
or the value is not an object). -/
def jget (j : Json) (k : String) : Option Json :=
  match j with
  | .obj fs => dget fs k
  | _ => none

/-- Association-list model of `d[k] = v`: overwrite in place if the key is
present, otherwise append (Python dicts keep insertion order). -/
def dset {α : Type} (l : List (String × α)) (k : String) (v : α) : List (String × α) :=
  match l with
  | [] => [(k, v)]
  | (k', v') :: t => if k' = k then (k, v) :: t else (k', v') :: dset t k v

/-- Association-list model of `del d[k]`. -/
def ddel {α : Type} (l : List (String × α)) (k : String) : List (String × α) :=
  l.filter (fun p => !(p.1 = k : Bool))

/-- Association-list model of `d.update(new)`: each key of `new` is set in
turn, overwriting existing entries. -/
def dupdate {α : Type} (old new : List (String × α)) : List (String × α) :=
  new.foldl (fun acc p => dset acc p.1 p.2) old

/-- Python `datetime.datetime` (naive, as produced by `datetime.utcnow()`):
a calendar record. The constructor in Python enforces the field ranges of
`isValidDT`; we keep plain `Nat` fields and carry validity as a predicate. -/
structure DateTime where
  year : Nat
  month : Nat
  day : Nat
  hour : Nat
  minute : Nat
  second : Nat
  microsecond : Nat
  deriving DecidableEq, Repr

def isLeap (y : Nat) : Bool := y % 4 = 0 && (y % 100 ≠ 0 || y % 400 = 0)

def daysInMonth (y m : Nat) : Nat :=
  [31, if isLeap y then 29 else 28, 31, 30, 31, 30, 31, 31, 30, 31, 30, 31].getD (m - 1) 31

/-- The field ranges Python's `datetime` constructor enforces. -/
def isValidDT (d : DateTime) : Bool :=
  1 ≤ d.year && d.year ≤ 9999 && 1 ≤ d.month && d.month ≤ 12 &&
  1 ≤ d.day && d.day ≤ daysInMonth d.year d.month &&
  d.hour ≤ 23 && d.minute ≤ 59 && d.second ≤ 59 && d.microsecond ≤ 999999

/-- Python `datetime` comparison `a < b`: lexicographic on the fields. -/
def dtLt (a b : DateTime) : Bool :=
  if a.year ≠ b.year then decide (a.year < b.year)
  else if a.month ≠ b.month then decide (a.month < b.month)
  else if a.day ≠ b.day then decide (a.day < b.day)
  else if a.hour ≠ b.hour then decide (a.hour < b.hour)
  else if a.minute ≠ b.minute then decide (a.minute < b.minute)
  else if a.second ≠ b.second then decide (a.second < b.second)
  else decide (a.microsecond < b.microsecond)

def pad2 (n : Nat) : List Char :=
  [Char.ofNat (48 + n / 10), Char.ofNat (48 + n % 10)]

def pad4 (n : Nat) : List Char :=
  [Char.ofNat (48 + n / 1000), Char.ofNat (48 + n / 100 % 10),
   Char.ofNat (48 + n / 10 % 10), Char.ofNat (48 + n % 10)]

def pad6 (n : Nat) : List Char :=
  [Char.ofNat (48 + n / 100000), Char.ofNat (48 + n / 10000 % 10),
   Char.ofNat (48 + n / 1000 % 10), Char.ofNat (48 + n / 100 % 10),
   Char.ofNat (48 + n / 10 % 10), Char.ofNat (48 + n % 10)]

/-- `datetime.isoformat()`: `YYYY-MM-DDTHH:MM:SS` with a `.ffffff` suffix
exactly when the microsecond field is nonzero. -/
def isoformatChars (d : DateTime) : List Char :=
  pad4 d.year ++ '-' :: (pad2 d.month ++ '-' :: (pad2 d.day ++ 'T' ::
    (pad2 d.hour ++ ':' :: (pad2 d.minute ++ ':' :: (pad2 d.second ++
      (if d.microsecond = 0 then [] else '.' :: pad6 d.microsecond))))))

def isoformat (d : DateTime) : String := ⟨isoformatChars d⟩

def parseDigit (c : Char) : Option Nat :=
  if c.isDigit then some (c.toNat - 48) else none

def parse2 : List Char → Option (Nat × List Char)
  | c1 :: c2 :: rest =>
    match parseDigit c1, parseDigit c2 with
    | some a, some b => some (a * 10 + b, rest)
    | _, _ => none
  | _ => none

def parse4 : List Char → Option (Nat × List Char)
  | c1 :: c2 :: c3 :: c4 :: rest =>
    match parseDigit c1, parseDigit c2, parseDigit c3, parseDigit c4 with
    | some a, some b, some c, some d => some (a * 1000 + b * 100 + c * 10 + d, rest)
    | _, _, _, _ => none
  | _ => none

def parse6 : List Char → Option (Nat × List Char)
  | c1 :: c2 :: c3 :: c4 :: c5 :: c6 :: rest =>
    match parseDigit c1, parseDigit c2, parseDigit c3, parseDigit c4, parseDigit c5, parseDigit c6 with
    | some a, some b, some c, some d, some e, some f =>
      some (a * 100000 + b * 10000 + c * 1000 + d * 100 + e * 10 + f, rest)
    | _, _, _, _, _, _ => none
  | _ => none

def expectChar (c : Char) : List Char → Option (List Char)
  | x :: rest => if x = c then some rest else none
  | _ => none

/-- The optional fractional-seconds tail: empty means zero microseconds,
otherwise `.ffffff`. -/
def parseFrac : List Char → Option Nat
  | [] => some 0
  | c :: fr =>
    if c = '.' then
      match parse6 fr with
      | some (u, rest) => if rest = [] then some u else none
      | none => none
    else none

/-- `datetime.fromisoformat` restricted to the shapes `isoformat` emits
(which is all the persistence layer ever feeds it); the final range check
mirrors the `datetime` constructor's validation. -/
def fromisoformatChars (cs : List Char) : Option DateTime :=
  (parse4 cs).bind fun p1 =>
  (expectChar '-' p1.2).bind fun r2 =>
  (parse2 r2).bind fun p2 =>
  (expectChar '-' p2.2).bind fun r3 =>
  (parse2 r3).bind fun p3 =>
  (expectChar 'T' p3.2).bind fun r4 =>
  (parse2 r4).bind fun p4 =>
  (expectChar ':' p4.2).bind fun r5 =>
  (parse2 r5).bind fun p5 =>
  (expectChar ':' p5.2).bind fun r6 =>
  (parse2 r6).bind fun p6 =>
  (parseFrac p6.2).bind fun us =>
  let dt : DateTime := ⟨p1.1, p2.1, p3.1, p4.1, p5.1, p6.1, us⟩
  if isValidDT dt then some dt else none

def fromisoformat (s : String) : Option DateTime := fromisoformatChars s.data

/-- Days before month `m` in year `y` (0 for January). -/
def daysBeforeMonth (y m : Nat) : Nat :=
  (List.range (m - 1)).foldl (fun acc i => acc + daysInMonth y (i + 1)) 0

/-- Proleptic-Gregorian ordinal of a date, day 1 = 0001-01-01 (as in
Python's `date.toordinal`). -/
def toOrdinal (y m d : Nat) : Nat :=
  365 * (y - 1) + (y - 1) / 4 + (y - 1) / 400 - (y - 1) / 100 + daysBeforeMonth y m + d

/-- Find the month containing 0-based day-of-year `doy` in year `y`,
returning the month and the 1-based day. -/
def findMonth (y doy : Nat) : Nat × Nat :=
  let step := fun (st : Nat × Nat × Bool) (i : Nat) =>
    match st with
    | (m, rem, true) => (m, rem, true)
    | (m, rem, false) =>
      let dim := daysInMonth y (i + 1)
      if rem < dim then (i + 1, rem, true) else (m, rem - dim, false)
  let r := (List.range 12).foldl step (1, doy, false)
  (r.1, r.2.1 + 1)

/-- Inverse of `toOrdinal` (as in Python's `date.fromordinal`). -/
def fromOrdinal (nn : Nat) : Nat × Nat × Nat :=
  let n := nn - 1
  let n400 := n / 146097
  let n := n % 146097
  let n100 := n / 36524
  let n := n % 36524
  let n4 := n / 1461
  let n := n % 1461
  let n1 := n / 365
  let n := n % 365
  let year := n400 * 400 + n100 * 100 + n4 * 4 + n1 + 1
  if n1 = 4 ∨ n100 = 4 then (year - 1, 12, 31)
  else
    let md := findMonth year n
    (year, md.1, md.2)

/-- `dt + timedelta(seconds=secs)` (the only `timedelta` shapes the server
uses: `timedelta(minutes=5)` and `timedelta(seconds=TTL)`). -/
def addSeconds (dt : DateTime) (secs : Nat) : DateTime :=
  let total := (toOrdinal dt.year dt.month dt.day - 1) * 86400 +
    dt.hour * 3600 + dt.minute * 60 + dt.second + secs
  let days := total / 86400
  let rem := total % 86400
  let ymd := fromOrdinal (days + 1)
  ⟨ymd.1, ymd.2.1, ymd.2.2, rem / 3600, rem / 60 % 60, rem % 60, dt.microsecond⟩

/-! ### SHA-256 (`hashlib.sha256`) over byte lists, 32-bit words as `Nat mod 2^32` -/

def rotr32 (n x : Nat) : Nat := (x / 2 ^ n + x % 2 ^ n * 2 ^ (32 - n)) % 2 ^ 32

/-- The 64 SHA-256 round constants of FIPS 180-4, written in decimal. -/
def shaK : List Nat :=
  [1116352408, 1899447441, 3049323471, 3921009573, 961987163,
   1508970993, 2453635748, 2870763221, 3624381080, 310598401,
   607225278, 1426881987, 1925078388, 2162078206, 2614888103,
   3248222580, 3835390401, 4022224774, 264347078, 604807628,
   770255983, 1249150122, 1555081692, 1996064986, 2554220882,
   2821834349, 2952996808, 3210313671, 3336571891, 3584528711,
   113926993, 338241895, 666307205, 773529912, 1294757372,
   1396182291, 1695183700, 1986661051, 2177026350, 2456956037,
   2730485921, 2820302411, 3259730800, 3345764771, 3516065817,
   3600352804, 4094571909, 275423344, 430227734, 506948616,
   659060556, 883997877, 958139571, 1322822218, 1537002063,
   1747873779, 1955562222, 2024104815, 2227730452, 2361852424,
   2428436474, 2756734187, 3204031479, 3329325298]

/-- The eight SHA-256 initial hash values of FIPS 180-4, in decimal. -/
def shaH0 : List Nat :=
  [1779033703, 3144134277, 1013904242, 2773480762,
   1359893119, 2600822924, 528734635, 1541459225]

def toBE64 (n : Nat) : List Nat :=
  [n / 2 ^ 56 % 256, n / 2 ^ 48 % 256, n / 2 ^ 40 % 256, n / 2 ^ 32 % 256,
   n / 2 ^ 24 % 256, n / 2 ^ 16 % 256, n / 2 ^ 8 % 256, n % 256]

/-- SHA-256 padding: `0x80`, zeros to 56 mod 64, 8-byte big-endian bit length. -/
def padMessage (msg : List Nat) : List Nat :=
  msg ++ 0x80 :: (List.replicate ((119 - msg.length % 64) % 64) 0 ++ toBE64 (msg.length * 8))

/-- Split into 64-byte blocks; the fuel argument keeps recursion structural. -/
def chunks64 : Nat → List Nat → List (List Nat)
  | 0, _ => []
  | _, [] => []
  | fuel + 1, l => l.take 64 :: chunks64 fuel (l.drop 64)

/-- Big-endian 32-bit words of a block. -/
def wordsOf : List Nat → List Nat
  | a :: b :: c :: d :: rest => (a * 2 ^ 24 + b * 2 ^ 16 + c * 2 ^ 8 + d) :: wordsOf rest
  | _ => []

def scheduleStep (ws : List Nat) : List Nat :=
  let i := ws.length
  let w15 := ws.getD (i - 15) 0
  let w2 := ws.getD (i - 2) 0
  let s0 := rotr32 7 w15 ^^^ rotr32 18 w15 ^^^ w15 / 2 ^ 3
  let s1 := rotr32 17 w2 ^^^ rotr32 19 w2 ^^^ w2 / 2 ^ 10
  ws ++ [(ws.getD (i - 16) 0 + s0 + ws.getD (i - 7) 0 + s1) % 2 ^ 32]

def extendSchedule : Nat → List Nat → List Nat
  | 0, ws => ws
  | n + 1, ws => extendSchedule n (scheduleStep ws)

def roundStep (k w : Nat) (st : List Nat) : List Nat :=
  match st with
  | [a, b, c, d, e, f, g, hh] =>
    let s1 := rotr32 6 e ^^^ rotr32 11 e ^^^ rotr32 25 e
    let ch := (e &&& f) ^^^ ((0xffffffff - e) &&& g)
    let temp1 := (hh + s1 + ch + k + w) % 2 ^ 32
    let s0 := rotr32 2 a ^^^ rotr32 13 a ^^^ rotr32 22 a
    let maj := (a &&& b) ^^^ (a &&& c) ^^^ (b &&& c)
    let temp2 := (s0 + maj) % 2 ^ 32
    [(temp1 + temp2) % 2 ^ 32, a, b, c, (d + temp1) % 2 ^ 32, e, f, g]
  | other => other

def compressRounds : List Nat → List Nat → List Nat → List Nat
  | [], _, st => st
  | _ :: _, [], st => st
  | k :: ks, w :: ws, st => compressRounds ks ws (roundStep k w st)

def processBlock (st block : List Nat) : List Nat :=
  let ws := extendSchedule 48 (wordsOf block)
  let st' := compressRounds shaK ws st
  (st.zip st').map (fun p => (p.1 + p.2) % 2 ^ 32)

def wordBE4 (w : Nat) : List Nat :=
  [w / 2 ^ 24 % 256, w / 2 ^ 16 % 256, w / 2 ^ 8 % 256, w % 256]

/-- `hashlib.sha256(msg).digest()`: the 32-byte digest. -/
def sha256 (msg : List Nat) : List Nat :=
  let padded := padMessage msg
  (((chunks64 padded.length padded).foldl processBlock shaH0).map wordBE4).flatten

/-! ### base64url without padding (`base64.urlsafe_b64encode(...).rstrip(b"=")`) -/

def b64Alphabet : List Char :=
  "ABCDEFGHIJKLMNOPQRSTUVWXYZabcdefghijklmnopqrstuvwxyz0123456789-_".data

def b64Char (i : Nat) : Char := b64Alphabet.getD i 'A'

/-- `base64.urlsafe_b64encode`: standard base64 over the URL-safe alphabet,
with `=` padding. -/
def b64Chunks : List Nat → List Char
  | [] => []
  | [a] => [b64Char (a / 4), b64Char (a % 4 * 16), '=', '=']
  | [a, b] => [b64Char (a / 4), b64Char (a % 4 * 16 + b / 16), b64Char (b % 16 * 4), '=']
  | a :: b :: c :: rest =>
    b64Char (a / 4) :: b64Char (a % 4 * 16 + b / 16) :: b64Char (b % 16 * 4 + c / 64) ::
      b64Char (c % 64) :: b64Chunks rest

/-- `.rstrip(b"=")`: drop trailing `=` characters. -/
def rstripEq : List Char → List Char
  | [] => []
  | c :: cs =>
    let r := rstripEq cs
    if r.isEmpty && c = '=' then [] else c :: r

def urlsafeB64NoPad (bs : List Nat) : String := ⟨rstripEq (b64Chunks bs)⟩

def b64ValAux : List Char → Nat → Char → Option Nat
  | [], _, _ => none
  | x :: xs, i, c => if x = c then some i else b64ValAux xs (i + 1) c

def b64Val (c : Char) : Option Nat := b64ValAux b64Alphabet 0 c

/-- Inverse of padding-stripped base64url encoding (used only in proofs, to
show the encoding is injective on digests). -/
def b64DecodeNoPad : List Char → Option (List Nat)
  | [] => some []
  | [c1, c2] =>
    match b64Val c1, b64Val c2 with
    | some v1, some v2 => some [v1 * 4 + v2 / 16]
    | _, _ => none
  | [c1, c2, c3] =>
    match b64Val c1, b64Val c2, b64Val c3 with
    | some v1, some v2, some v3 => some [v1 * 4 + v2 / 16, v2 % 16 * 16 + v3 / 4]
    | _, _, _ => none
  | c1 :: c2 :: c3 :: c4 :: rest =>
    match b64Val c1, b64Val c2, b64Val c3, b64Val c4, b64DecodeNoPad rest with
    | some v1, some v2, some v3, some v4, some bs =>
      some ((v1 * 4 + v2 / 16) :: (v2 % 16 * 16 + v3 / 4) :: (v3 % 4 * 64 + v4) :: bs)
    | _, _, _, _, _ => none
  | _ => none

/-! ### PKCE verification (`verify_pkce` in `server.py`) -/

/-- `str.encode("ascii")`: code points of the string (the server only ever
hashes ASCII verifiers, for which this is exact). -/
def strBytes (s : String) : List Nat := s.data.map Char.toNat

def sha256Str (s : String) : List Nat := sha256 (strBytes s)

/-- The S256 code challenge of a verifier: base64url-without-padding of its
SHA-256 digest. -/
def s256 (v : String) : String := urlsafeB64NoPad (sha256Str v)

/-- `verify_pkce(code_verifier, code_challenge)` from `server.py`: empty
verifier or challenge fails; otherwise the computed S256 challenge is
compared (via `secrets.compare_digest`, semantically string equality). -/
def verify_pkce (code_verifier code_challenge : String) : Bool :=
  if code_verifier = "" ∨ code_challenge = "" then false
  else s256 code_verifier == code_challenge

/-! ### The OAuth store and HTTP handlers of `server.py` -/

/-- An entry of `authorization_codes` as built in `authorize_post`. -/
structure AuthCodeData where
  client_id : String
  redirect_uri : String
  code_challenge : String
  code_challenge_method : String
  scope : String
  expires_at : DateTime
  deriving DecidableEq, Repr

/-- An entry of `access_tokens` as built in `token_endpoint`. -/
structure AccessTokenData where
  client_id : String
  expires_at : DateTime
  scope : String
  deriving DecidableEq, Repr

/-- An entry of `refresh_tokens` as built in `token_endpoint`. -/
structure RefreshTokenData where
  client_id : String
  scope : String
  deriving DecidableEq, Repr

/-- The module-level mutable dicts of `server.py`. Registered-client
metadata is a dynamic dict in Python, kept here as a JSON object. -/
structure Store where
  registered_clients : List (String × Json)
  authorization_codes : List (String × AuthCodeData)
  access_tokens : List (String × AccessTokenData)
  refresh_tokens : List (String × RefreshTokenData)

def emptyStore : Store := ⟨[], [], [], []⟩

/-- The environment configuration the handlers read. -/
structure Config where
  oauth_password : String
  token_expiry_seconds : Nat

/-- A Starlette `JSONResponse`: status code and JSON body (headers such as
CORS and `WWW-Authenticate` carry no claim-relevant data and are omitted). -/
structure HttpResponse where
  status : Nat
  body : Json

/-- The `{"error": ..., "error_description": ...}` error body shape. -/
def errJson (e desc : String) : Json :=
  .obj [("error", .str e), ("error_description", .str desc)]

/-- `body.get(k) or default` (Python `or`: the default is used when the key
is absent or its value is falsy). -/
def orDefault (o : Option Json) (dflt : Json) : Json :=
  match o with
  | some v => if jsonTruthy v then v else dflt
  | none => dflt

/-- `if body.get(k): client_info[k] = body[k]` — emit the field only when
the supplied value is truthy. -/
def optField (body : Json) (k : String) : List (String × Json) :=
  match jget body k with
  | some v => if jsonTruthy v then [(k, v)] else []
  | none => []

/-- The `client_info` dict built by `register_client`: the six always-present
fields (with the `or`-defaults for grant/response types) followed by the
optional fields, each present only when its supplied value is truthy. -/
def registerClientInfo (body : Json) (client_id client_secret : String) (issued_at : Int) : Json :=
  .obj (
    [("client_id", .str client_id),
     ("client_secret", .str client_secret),
     ("client_id_issued_at", .num issued_at),
     ("grant_types", orDefault (jget body "grant_types")
        (.arr [.str "authorization_code", .str "refresh_token"])),
     ("response_types", orDefault (jget body "response_types") (.arr [.str "code"])),
     ("token_endpoint_auth_method", .str "client_secret_post")]
    ++ optField body "client_name" ++ optField body "redirect_uris" ++ optField body "scope")

/-- `register_client` (`POST /register`): mints a client record from the
request body and the freshly generated credentials (`secrets.token_urlsafe`
values and `int(datetime.utcnow().timestamp())` are effectful reads, passed
as the `client_id`, `client_secret` and `issued_at` parameters). -/
def register_client (body : Json) (client_id client_secret : String) (issued_at : Int)
    (s : Store) : Store × HttpResponse :=
  let client_info : Json := registerClientInfo body client_id client_secret issued_at
  ({ s with registered_clients := dset s.registered_clients client_id client_info },
   ⟨201, client_info⟩)

/-- Query parameters of `GET /authorize` (after the `.get` defaults). -/
structure AuthorizeQuery where
  client_id : String
  redirect_uri : String
  state : String
  code_challenge : String
  code_challenge_method : String
  scope : String
  deriving DecidableEq, Repr

/-- Outcome of `GET /authorize`: a 400 error page for an unknown client, or
the login form echoing the query fields as hidden inputs. -/
inductive AuthGetResponse where
  | unknownClient : AuthGetResponse
  | loginForm (client_id redirect_uri state code_challenge code_challenge_method scope : String) :
      AuthGetResponse
  deriving DecidableEq, Repr

/-- `authorize_get` (`GET /authorize`): the only place a client_id is
checked against the registry. -/
def authorize_get (q : AuthorizeQuery) (s : Store) : AuthGetResponse :=
  match dget s.registered_clients q.client_id with
  | none => .unknownClient
  | some _ => .loginForm q.client_id q.redirect_uri q.state q.code_challenge
      q.code_challenge_method q.scope

/-- Form fields of `POST /authorize` (after the `.get` defaults). -/
structure AuthorizeForm where
  client_id : String
  redirect_uri : String
  state : String
  code_challenge : String
  code_challenge_method : String
  scope : String
  password : String
  deriving DecidableEq, Repr

/-- Outcome of `POST /authorize`: a terminal HTML error page, or a 302
redirect carrying the code and (when nonempty) the pass-through state. The
redirect is kept as its components; `urlencode` formatting carries no
claim-relevant content. -/
inductive AuthPostResponse where
  | errorHtml (status : Nat) : AuthPostResponse
  | redirect (redirect_uri code : String) (state : Option String) : AuthPostResponse
  deriving DecidableEq, Repr

/-- `authorize_post` (`POST /authorize`): password check
(`secrets.compare_digest`, semantically string equality) then code minting.
`newCode` stands for the effectful `secrets.token_urlsafe(32)` read. -/
def authorize_post (cfg : Config) (now : DateTime) (newCode : String) (form : AuthorizeForm)
    (s : Store) : Store × AuthPostResponse :=
  if cfg.oauth_password = "" then (s, .errorHtml 500)
  else if form.password ≠ cfg.oauth_password then (s, .errorHtml 401)
  else
    let cd : AuthCodeData := ⟨form.client_id, form.redirect_uri, form.code_challenge,
      form.code_challenge_method, form.scope, addSeconds now 300⟩
    ({ s with authorization_codes := dset s.authorization_codes newCode cd },
     .redirect form.redirect_uri newCode (if form.state = "" then none else some form.state))

/-- Fields of a `POST /token` request body (after the `.get` defaults). -/
structure TokenRequest where
  grant_type : String
  code : String
  code_verifier : String
  client_id : String
  refresh_token : String
  deriving DecidableEq, Repr

/-- `token_endpoint` (`POST /token`): `authorization_code` and
`refresh_token` grants. `newAccess`/`newRefresh` stand for the effectful
`secrets.token_urlsafe(32)` reads; `now` for `datetime.utcnow()`. The
Python success path stores the tokens, persists, then deletes the code; the
net store updates are modelled directly. -/
def token_endpoint (cfg : Config) (now : DateTime) (newAccess newRefresh : String)
    (req : TokenRequest) (s : Store) : Store × HttpResponse :=
  if req.grant_type = "authorization_code" then
    match dget s.authorization_codes req.code with
    | none => (s, ⟨400, errJson "invalid_grant" "Invalid authorization code"⟩)
    | some code_data =>
      if dtLt code_data.expires_at now then
        ({ s with authorization_codes := ddel s.authorization_codes req.code },
         ⟨400, errJson "invalid_grant" "Authorization code expired"⟩)
      else if code_data.client_id ≠ req.client_id then
        (s, ⟨400, errJson "invalid_grant" "Client ID mismatch"⟩)
      else if code_data.code_challenge ≠ "" ∧
          verify_pkce req.code_verifier code_data.code_challenge = false then
        (s, ⟨400, errJson "invalid_grant" "PKCE verification failed"⟩)
      else
        let expires_at := addSeconds now cfg.token_expiry_seconds
        ({ s with
            access_tokens := dset s.access_tokens newAccess
              ⟨req.client_id, expires_at, code_data.scope⟩,
            refresh_tokens := dset s.refresh_tokens newRefresh
              ⟨req.client_id, code_data.scope⟩,
            authorization_codes := ddel s.authorization_codes req.code },
         ⟨200, .obj [("access_token", .str newAccess), ("token_type", .str "Bearer"),
           ("expires_in", .num (cfg.token_expiry_seconds : Int)),
           ("refresh_token", .str newRefresh), ("scope", .str code_data.scope)]⟩)
  else if req.grant_type = "refresh_token" then
    match dget s.refresh_tokens req.refresh_token with
    | none => (s, ⟨400, errJson "invalid_grant" "Invalid refresh token"⟩)
    | some token_data =>
      if token_data.client_id ≠ req.client_id then
        (s, ⟨400, errJson "invalid_grant" "Client ID mismatch"⟩)
      else
        let expires_at := addSeconds now cfg.token_expiry_seconds
        ({ s with access_tokens := (dset s.access_tokens newAccess
            ⟨req.client_id, expires_at, token_data.scope⟩) },
         ⟨200, .obj [("access_token", .str newAccess), ("token_type", .str "Bearer"),
           ("expires_in", .num (cfg.token_expiry_seconds : Int)),
           ("scope", .str token_data.scope)]⟩)
  else (s, ⟨400, .obj [("error", .str "unsupported_grant_type")]⟩)

/-! ### Bearer-enforcement middleware (`OAuthAuthMiddleware.dispatch`) -/

def PUBLIC_PATHS : List String :=
  ["/health", "/.well-known/", "/authorize", "/token", "/register"]

/-- Python `str.startswith`: code-point prefix test. -/
def pyStartsWith (s p : String) : Bool := p.data.isPrefixOf s.data

/-- Python slicing `s[n:]`: drop the first `n` code points. -/
def pyDrop (s : String) (n : Nat) : String := ⟨s.data.drop n⟩

/-- A request as the middleware sees it: method, URL path, and the
`Authorization` header (`""` when absent, matching `.get(..., "")`). -/
structure MwRequest where
  method : String
  path : String
  authorization : String
  deriving DecidableEq, Repr

/-- `OAuthAuthMiddleware.dispatch` up to the auth decision: `none` means
the request is forwarded to the wrapped app (`call_next`), `some r` means
it is rejected with `r` without reaching the app. -/
def dispatch (req : MwRequest) (now : DateTime) (s : Store) : Option HttpResponse :=
  if req.method = "OPTIONS" then none
  else if PUBLIC_PATHS.any (fun p => pyStartsWith req.path p) then none
  else if req.path = "/" then
    if !pyStartsWith req.authorization "Bearer " then
      some ⟨401, errJson "unauthorized" "Missing Authorization header"⟩
    else
      match dget s.access_tokens (pyDrop req.authorization 7) with
      | none => some ⟨401, errJson "invalid_token" "Token not found"⟩
      | some token_data =>
        if dtLt token_data.expires_at now then
          some ⟨401, errJson "invalid_token" "Token expired"⟩
        else none
  else none

/-! ### Persistence (`_save_tokens_to_disk` / `_load_tokens_from_disk`) -/

def accessTokenToJson (t : AccessTokenData) : Json :=
  .obj [("client_id", .str t.client_id), ("expires_at", .str (isoformat t.expires_at)),
    ("scope", .str t.scope)]

def refreshTokenToJson (t : RefreshTokenData) : Json :=
  .obj [("client_id", .str t.client_id), ("scope", .str t.scope)]

/-- The JSON document `_save_tokens_to_disk` writes: exactly the three
top-level maps, with each access token's `expires_at` replaced by its
`isoformat()` string. Authorization codes are not read at all. -/
def saveDoc (s : Store) : Json :=
  .obj [("registered_clients", .obj s.registered_clients),
    ("access_tokens", .obj (s.access_tokens.map (fun p => (p.1, accessTokenToJson p.2)))),
    ("refresh_tokens", .obj (s.refresh_tokens.map (fun p => (p.1, refreshTokenToJson p.2))))]

def accessTokenOfJson (j : Json) : Option AccessTokenData :=
  match jget j "client_id", jget j "expires_at", jget j "scope" with
  | some (.str cid), some (.str ea), some (.str sc) =>
    match fromisoformat ea with
    | some dt => some ⟨cid, dt, sc⟩
    | none => none
  | _, _, _ => none

def refreshTokenOfJson (j : Json) : Option RefreshTokenData :=
  match jget j "client_id", jget j "scope" with
  | some (.str cid), some (.str sc) => some ⟨cid, sc⟩
  | _, _ => none

def mapMEntries {α : Type} (f : Json → Option α) :
    List (String × Json) → Option (List (String × α))
  | [] => some []
  | (k, v) :: t =>
    match f v, mapMEntries f t with
    | some a, some rest => some ((k, a) :: rest)
    | _, _ => none

/-- Reading a persisted document back into the typed entry records. Python
keeps raw dicts and only converts `expires_at` via `fromisoformat`; on the
well-formed documents `saveDoc` produces (the only ones the claims concern)
this typed reading is that same identification. -/
def parseDoc (j : Json) :
    Option (List (String × Json) × List (String × AccessTokenData) × List (String × RefreshTokenData)) :=
  match jget j "registered_clients", jget j "access_tokens", jget j "refresh_tokens" with
  | some (.obj cs), some (.obj ats), some (.obj rts) =>
    match mapMEntries accessTokenOfJson ats, mapMEntries refreshTokenOfJson rts with
    | some ats2, some rts2 => some (cs, ats2, rts2)
    | _, _ => none
  | _, _, _ => none

/-- `_load_tokens_from_disk`: on a parse/conversion error nothing is
updated (the exception aborts before the `.update` calls); otherwise the
three maps are `.update`d with the loaded entries. -/
def loadStore (j : Json) (s : Store) : Store :=
  match parseDoc j with
  | none => s
  | some (cs, ats, rts) =>
    { s with registered_clients := dupdate s.registered_clients cs,
             access_tokens := dupdate s.access_tokens ats,
             refresh_tokens := dupdate s.refresh_tokens rts }

/-- Top-level keys of a JSON object (empty for non-objects). -/
def jsonTopKeys : Json → List String
  | .obj fs => fs.map Prod.fst
  | _ => []

/-- "Supplied a non-empty value": a nonempty string or a nonempty array
(the shapes RFC 7591 gives the optional registration fields). -/
def jsonNonEmptyVal : Json → Bool
  | .str s => decide (s ≠ "")
  | .arr l => !l.isEmpty
  | _ => false

/-- The optional registration fields are protocol-typed: absent, a string,
or an array (on these, Python truthiness coincides with non-emptiness). -/
def typedOptional : Option Json → Bool
  | none => true
  | some (.str _) => true
  | some (.arr _) => true
  | some _ => false

/-! ### Auxiliary lemmas about the dict and string models -/

theorem dget_dset_self {α : Type} (l : List (String × α)) (k : String) (v : α) :
    dget (dset l k v) k = some v := by
  induction l with
  | nil => simp [dget, dset]
  | cons h t ih =>
    obtain ⟨k', v'⟩ := h
    by_cases hk : k' = k <;> simp [dget, dset, hk, ih]

theorem dget_ddel_self {α : Type} (l : List (String × α)) (k : String) :
    dget (ddel l k) k = none := by
  induction l with
  | nil => simp [dget, ddel]
  | cons h t ih =>
    obtain ⟨k', v'⟩ := h
    by_cases hk : k' = k <;> simp [dget, ddel, hk] at ih ⊢ <;> simp [ih]

theorem parseDigit_ofNat : ∀ k, k < 10 → parseDigit (Char.ofNat (48 + k)) = some k := by
  decide

theorem parse2_pad2 (n : Nat) (h : n < 100) (rest : List Char) :
    parse2 (pad2 n ++ rest) = some (n, rest) := by
  have h1 : n / 10 < 10 := by omega
  have h2 : n % 10 < 10 := by omega
  simp [pad2, parse2, parseDigit_ofNat _ h1, parseDigit_ofNat _ h2]
  omega

theorem parse4_pad4 (n : Nat) (h : n < 10000) (rest : List Char) :
    parse4 (pad4 n ++ rest) = some (n, rest) := by
  have h1 : n / 1000 < 10 := by omega
  have h2 : n / 100 % 10 < 10 := by omega
  have h3 : n / 10 % 10 < 10 := by omega
  have h4 : n % 10 < 10 := by omega
  simp [pad4, parse4, parseDigit_ofNat _ h1, parseDigit_ofNat _ h2,
    parseDigit_ofNat _ h3, parseDigit_ofNat _ h4]
  omega

theorem parse6_pad6 (n : Nat) (h : n < 1000000) (rest : List Char) :
    parse6 (pad6 n ++ rest) = some (n, rest) := by
  have h1 : n / 100000 < 10 := by omega
  have h2 : n / 10000 % 10 < 10 := by omega
  have h3 : n / 1000 % 10 < 10 := by omega
  have h4 : n / 100 % 10 < 10 := by omega
  have h5 : n / 10 % 10 < 10 := by omega
  have h6 : n % 10 < 10 := by omega
  simp [pad6, parse6, parseDigit_ofNat _ h1, parseDigit_ofNat _ h2,
    parseDigit_ofNat _ h3, parseDigit_ofNat _ h4, parseDigit_ofNat _ h5,
    parseDigit_ofNat _ h6]
  omega

theorem parse2_pad2_nil (n : Nat) (h : n < 100) : parse2 (pad2 n) = some (n, []) := by
  have := parse2_pad2 n h []
  simpa using this

theorem parse6_pad6_nil (n : Nat) (h : n < 1000000) : parse6 (pad6 n) = some (n, []) := by
  have := parse6_pad6 n h []
  simpa using this

theorem expectChar_cons (c : Char) (rest : List Char) :
    expectChar c (c :: rest) = some rest := by
  simp [expectChar]

theorem parseFrac_nil : parseFrac [] = some 0 := rfl

theorem parseFrac_dot (n : Nat) (h : n < 1000000) :
    parseFrac ('.' :: pad6 n) = some n := by
  simp [parseFrac, parse6_pad6_nil n h]

set_option maxHeartbeats 1000000 in
/-- The ISO-8601 serialization of a valid datetime parses back to the same
datetime: the persistence format is lossless on `expires_at`. -/
theorem fromisoformat_isoformat (d : DateTime) (h : isValidDT d = true) :
    fromisoformat (isoformat d) = some d := by
  have hb := h
  simp only [isValidDT, Bool.and_eq_true, decide_eq_true_eq] at hb
  obtain ⟨⟨⟨⟨⟨⟨⟨⟨⟨hy1, hy2⟩, hm1⟩, hm2⟩, hd1⟩, hd2⟩, hh⟩, hmi⟩, hs⟩, hus⟩ := hb
  have hy : d.year < 10000 := by omega
  have hmo : d.month < 100 := by omega
  have hdd : d.day < 100 := by
    have : daysInMonth d.year d.month ≤ 31 := by
      unfold daysInMonth
      rcases Nat.lt_or_ge (d.month - 1) 12 with h12 | h12
      · interval_cases h' : d.month - 1 <;> simp [List.getD] <;> split <;> omega
      · rw [List.getD_eq_default]
        simp
        omega
    omega
  have hho : d.hour < 100 := by omega
  have hmin : d.minute < 100 := by omega
  have hsec : d.second < 100 := by omega
  have husl : d.microsecond < 1000000 := by omega
  unfold fromisoformat isoformat
  by_cases h0 : d.microsecond = 0
  · simp only [fromisoformatChars, isoformatChars, h0, List.append_nil, List.cons_append,
      parse4_pad4 d.year hy, parse2_pad2 d.month hmo, parse2_pad2 d.day hdd,
      parse2_pad2 d.hour hho, parse2_pad2 d.minute hmin, parse2_pad2_nil d.second hsec,
      expectChar_cons, parseFrac_nil, Option.some_bind, if_true, ite_true, List.append_nil]
    rw [show (⟨d.year, d.month, d.day, d.hour, d.minute, d.second, 0⟩ : DateTime) = d by
      cases d; simp_all]
    simp [h]
  · simp only [fromisoformatChars, isoformatChars, h0, List.cons_append,
      parse4_pad4 d.year hy, parse2_pad2 d.month hmo, parse2_pad2 d.day hdd,
      parse2_pad2 d.hour hho, parse2_pad2 d.minute hmin, parse2_pad2 d.second hsec,
      parseFrac_dot d.microsecond husl, expectChar_cons, Option.some_bind,
      if_false, ite_false]
    simp [h]

theorem roundStep_length (k w : Nat) (st : List Nat) :
    (roundStep k w st).length = st.length := by
  unfold roundStep
  rcases st with _ | ⟨a, _ | ⟨b, _ | ⟨c, _ | ⟨d, _ | ⟨e, _ | ⟨f, _ | ⟨g, _ | ⟨hh, _ | ⟨i, t⟩⟩⟩⟩⟩⟩⟩⟩⟩ <;>
    simp

theorem compressRounds_length (ks ws st : List Nat) :
    (compressRounds ks ws st).length = st.length := by
  induction ks generalizing ws st with
  | nil => simp [compressRounds]
  | cons k ks ih =>
    cases ws with
    | nil => simp [compressRounds]
    | cons w ws => simp [compressRounds, ih, roundStep_length]

theorem processBlock_length (st block : List Nat) :
    (processBlock st block).length = st.length := by
  simp [processBlock, compressRounds_length]

theorem sha256_length (msg : List Nat) : (sha256 msg).length = 32 := by
  unfold sha256
  have hfold : ∀ (blocks : List (List Nat)) (st : List Nat),
      (blocks.foldl processBlock st).length = st.length := by
    intro blocks
    induction blocks with
    | nil => intro st; rfl
    | cons b bs ih => intro st; simp [List.foldl_cons, ih, processBlock_length]
  have hlen4 : ∀ l : List Nat, ((l.map wordBE4).flatten).length = 4 * l.length := by
    intro l
    induction l with
    | nil => rfl
    | cons x t ih => simp [List.map_cons, List.flatten_cons, List.length_append, ih, wordBE4]; omega
  rw [hlen4, hfold]
  rfl

theorem sha256_bytes_lt (msg : List Nat) : ∀ x ∈ sha256 msg, x < 256 := by
  intro x hx
  unfold sha256 at hx
  simp [List.mem_flatten] at hx
  obtain ⟨w, _, hw⟩ := hx
  simp [wordBE4] at hw
  rcases hw with h | h | h | h <;> omega

theorem b64Val_b64Char : ∀ i, i < 64 → b64Val (b64Char i) = some i := by decide

theorem b64Char_ne_pad : ∀ i, b64Char i ≠ '=' := by
  intro i
  by_cases h : i < 64
  · exact (by decide : ∀ j, j < 64 → b64Char j ≠ '=') i h
  · unfold b64Char
    rw [List.getD_eq_default]
    · decide
    · have : b64Alphabet.length = 64 := by decide
      omega

theorem rstripEq_append (l1 l2 : List Char) (h : ∀ c ∈ l1, c ≠ '=') :
    rstripEq (l1 ++ l2) = l1 ++ rstripEq l2 := by
  induction l1 with
  | nil => rfl
  | cons c cs ih =>
    have hc : c ≠ '=' := h c (by simp)
    have ih' := ih (fun x hx => h x (by simp [hx]))
    simp only [List.cons_append, rstripEq, ih']
    simp [hc, ih']

theorem b64_roundtrip : ∀ bs : List Nat, (∀ x ∈ bs, x < 256) →
    b64DecodeNoPad (rstripEq (b64Chunks bs)) = some bs := by
  intro bs
  induction bs using b64Chunks.induct with
  | case1 =>
    intro _
    rfl
  | case2 a =>
    intro hb
    have ha : a < 256 := hb a (by simp)
    have h1 : a / 4 < 64 := by omega
    have h2 : a % 4 * 16 < 64 := by omega
    simp only [b64Chunks, rstripEq, List.isEmpty_nil, List.isEmpty_cons]
    simp [b64Char_ne_pad, b64DecodeNoPad, b64Val_b64Char _ h1, b64Val_b64Char _ h2]
    omega
  | case3 a b =>
    intro hb
    have ha : a < 256 := hb a (by simp)
    have hbb : b < 256 := hb b (by simp)
    have h1 : a / 4 < 64 := by omega
    have h2 : a % 4 * 16 + b / 16 < 64 := by omega
    have h3 : b % 16 * 4 < 64 := by omega
    simp only [b64Chunks, rstripEq, List.isEmpty_nil, List.isEmpty_cons]
    simp [b64Char_ne_pad, b64DecodeNoPad, b64Val_b64Char _ h1, b64Val_b64Char _ h2,
      b64Val_b64Char _ h3]
    constructor
    · omega
    · omega
  | case4 a b c rest ih =>
    intro hb
    have ha : a < 256 := hb a (by simp)
    have hbb : b < 256 := hb b (by simp)
    have hc : c < 256 := hb c (by simp)
    have h1 : a / 4 < 64 := by omega
    have h2 : a % 4 * 16 + b / 16 < 64 := by omega
    have h3 : b % 16 * 4 + c / 64 < 64 := by omega
    have h4 : c % 64 < 64 := by omega
    have hrest : ∀ x ∈ rest, x < 256 := fun x hx => hb x (by simp [hx])
    have hstrip : rstripEq (b64Chunks (a :: b :: c :: rest)) =
        b64Char (a / 4) :: b64Char (a % 4 * 16 + b / 16) :: b64Char (b % 16 * 4 + c / 64) ::
          b64Char (c % 64) :: rstripEq (b64Chunks rest) := by
      have := rstripEq_append
        [b64Char (a / 4), b64Char (a % 4 * 16 + b / 16), b64Char (b % 16 * 4 + c / 64),
          b64Char (c % 64)] (b64Chunks rest)
        (by intro x hx; simp at hx; rcases hx with h | h | h | h <;> simp [h, b64Char_ne_pad])
      simpa [b64Chunks] using this
    rw [hstrip]
    simp only [b64DecodeNoPad, b64Val_b64Char _ h1, b64Val_b64Char _ h2, b64Val_b64Char _ h3,
      b64Val_b64Char _ h4, ih hrest]
    congr 1
    congr 1
    · omega
    congr 1
    · omega
    congr 1
    · omega

theorem s256_ne_empty (v : String) : s256 v ≠ "" := by
  unfold s256 urlsafeB64NoPad
  have h32 : (sha256Str v).length = 32 := sha256_length _
  rcases hd : sha256Str v with _ | ⟨a, _ | ⟨b, _ | ⟨c, t⟩⟩⟩ <;> rw [hd] at h32 <;> simp at h32
  simp only [b64Chunks]
  intro hcontra
  have : rstripEq (b64Char (a / 4) :: b64Char (a % 4 * 16 + b / 16) ::
      b64Char (b % 16 * 4 + c / 64) :: b64Char (c % 64) :: b64Chunks t) = [] := by
    have := congrArg String.data hcontra
    simpa using this
  rw [show rstripEq (b64Char (a / 4) :: b64Char (a % 4 * 16 + b / 16) ::
      b64Char (b % 16 * 4 + c / 64) :: b64Char (c % 64) :: b64Chunks t) =
      if (rstripEq (b64Char (a % 4 * 16 + b / 16) :: b64Char (b % 16 * 4 + c / 64) ::
        b64Char (c % 64) :: b64Chunks t)).isEmpty ∧ b64Char (a / 4) = '=' then []
      else b64Char (a / 4) :: rstripEq (b64Char (a % 4 * 16 + b / 16) ::
        b64Char (b % 16 * 4 + c / 64) :: b64Char (c % 64) :: b64Chunks t) from by
    simp [rstripEq]] at this
  split at this
  · next hsp => exact b64Char_ne_pad _ hsp.2
  · simp at this

theorem s256_inj {v v' : String} (h : s256 v = s256 v') : sha256Str v = sha256Str v' := by
  have h1 := b64_roundtrip (sha256Str v) (sha256_bytes_lt _)
  have h2 := b64_roundtrip (sha256Str v') (sha256_bytes_lt _)
  unfold s256 urlsafeB64NoPad at h
  have hd : rstripEq (b64Chunks (sha256Str v)) = rstripEq (b64Chunks (sha256Str v')) := by
    have := congrArg String.data h
    simpa using this
  rw [hd, h2] at h1
  exact (Option.some.inj h1).symm

theorem dget_cons_self {α : Type} (k : String) (v : α) (t : List (String × α)) :
    dget ((k, v) :: t) k = some v := by
  simp [dget]

theorem dget_cons_of_ne {α : Type} {k' k : String} (h : k' ≠ k) (v : α) (t : List (String × α)) :
    dget ((k', v) :: t) k = dget t k := by
  simp [dget, h]

theorem dget_append {α : Type} (l1 l2 : List (String × α)) (k : String) :
    dget (l1 ++ l2) k =
      match dget l1 k with
      | some v => some v
      | none => dget l2 k := by
  induction l1 with
  | nil => simp [dget]
  | cons p t ih =>
    obtain ⟨k', v'⟩ := p
    by_cases hk : k' = k <;> simp [dget, hk, ih]

theorem dset_of_not_mem {α : Type} (l : List (String × α)) (k : String) (v : α)
    (h : k ∉ l.map Prod.fst) : dset l k v = l ++ [(k, v)] := by
  induction l with
  | nil => simp [dset]
  | cons p t ih =>
    rw [List.map_cons, List.mem_cons] at h
    push_neg at h
    obtain ⟨h1, h2⟩ := h
    obtain ⟨k', v'⟩ := p
    simp only [dset, List.cons_append]
    rw [if_neg (fun he => h1 he.symm), ih h2]

theorem dupdate_eq_append {α : Type} :
    ∀ (new acc : List (String × α)),
      (∀ k ∈ acc.map Prod.fst, k ∉ new.map Prod.fst) → (new.map Prod.fst).Nodup →
      dupdate acc new = acc ++ new := by
  intro new
  induction new with
  | nil => intro acc _ _; simp [dupdate]
  | cons p t ih =>
    intro acc hdisj hnodup
    obtain ⟨k, v⟩ := p
    have hk : k ∉ acc.map Prod.fst := by
      intro hmem
      exact hdisj k hmem (by rw [List.map_cons, List.mem_cons]; left; rfl)
    have hstep : dset acc k v = acc ++ [(k, v)] := dset_of_not_mem acc k v hk
    rw [List.map_cons, List.nodup_cons] at hnodup
    obtain ⟨hknott, hnodup2⟩ := hnodup
    have hdisj2 : ∀ k' ∈ (acc ++ [(k, v)]).map Prod.fst, k' ∉ t.map Prod.fst := by
      intro k' hk'
      rw [List.map_append, List.mem_append] at hk'
      rcases hk' with h | h
      · intro hmem
        exact hdisj k' h (by rw [List.map_cons, List.mem_cons]; right; exact hmem)
      · have : k' = k := by simpa using h
        rw [this]
        exact hknott
    have hrec := ih (acc ++ [(k, v)]) hdisj2 hnodup2
    simp only [dupdate, List.foldl_cons] at hrec ⊢
    rw [hstep] at *
    rw [hrec]
    simp

theorem dupdate_nil {α : Type} (l : List (String × α)) (h : (l.map Prod.fst).Nodup) :
    dupdate [] l = l := by
  have := dupdate_eq_append l [] (by simp) h
  simpa using this

theorem mapMEntries_roundtrip {α : Type} (f : α → Json) (g : Json → Option α)
    (l : List (String × α)) (h : ∀ p ∈ l, g (f p.2) = some p.2) :
    mapMEntries g (l.map (fun p => (p.1, f p.2))) = some l := by
  induction l with
  | nil => rfl
  | cons p t ih =>
    have hp : g (f p.2) = some p.2 := h p (by simp)
    have ht := ih (fun q hq => h q (by simp [hq]))
    simp [mapMEntries, hp, ht]

theorem accessToken_roundtrip (t : AccessTokenData) (h : isValidDT t.expires_at = true) :
    accessTokenOfJson (accessTokenToJson t) = some t := by
  simp [accessTokenOfJson, accessTokenToJson, jget, dget, fromisoformat_isoformat _ h]

theorem refreshToken_roundtrip (t : RefreshTokenData) :
    refreshTokenOfJson (refreshTokenToJson t) = some t := rfl

theorem pyStartsWith_append (p t : String) : pyStartsWith (p ++ t) p = true := by
  unfold pyStartsWith
  rw [show (p ++ t).data = p.data ++ t.data by cases p; cases t; rfl]
  induction p.data with
  | nil => simp [List.isPrefixOf]
  | cons c cs ih => simp [List.isPrefixOf, ih]

theorem pyDrop_bearer (t : String) : pyDrop ("Bearer " ++ t) 7 = t := by
  unfold pyDrop
  rw [show ("Bearer " ++ t).data = "Bearer ".data ++ t.data by cases t; rfl]
  rw [show (7 : Nat) = "Bearer ".data.length from rfl, List.drop_left]

theorem jget_obj (fs : List (String × Json)) (k : String) : jget (.obj fs) k = dget fs k := rfl

theorem dget_append_right_none {α : Type} (l1 l2 : List (String × α)) (k : String)
    (h : dget l2 k = none) : dget (l1 ++ l2) k = dget l1 k := by
  rw [dget_append]
  cases hd : dget l1 k <;> simp [h]

theorem dget_append_left_none {α : Type} (l1 l2 : List (String × α)) (k : String)
    (h : dget l1 k = none) : dget (l1 ++ l2) k = dget l2 k := by
  rw [dget_append]
  simp [h]

theorem dget_optField_self (body : Json) (k : String) :
    dget (optField body k) k =
      match jget body k with
      | some v => if jsonTruthy v then some v else none
      | none => none := by
  unfold optField
  cases hv : jget body k with
  | none => simp [dget]
  | some v => by_cases ht : jsonTruthy v <;> simp [dget, ht]

theorem dget_optField_ne (body : Json) {k' k : String} (h : k' ≠ k) :
    dget (optField body k') k = none := by
  unfold optField
  cases jget body k' with
  | none => simp [dget]
  | some v => by_cases ht : jsonTruthy v <;> simp [dget, ht, h]

theorem jget_registerClientInfo_opt (body : Json) (cid sec : String) (ia : Int) (k : String)
    (hk : k = "client_name" ∨ k = "redirect_uris" ∨ k = "scope") :
    jget (registerClientInfo body cid sec ia) k =
      match jget body k with
      | some v => if jsonTruthy v then some v else none
      | none => none := by
  have hbase : ∀ tail : List (String × Json),
      dget ([("client_id", Json.str cid), ("client_secret", .str sec),
        ("client_id_issued_at", .num ia),
        ("grant_types", orDefault (jget body "grant_types")
          (.arr [.str "authorization_code", .str "refresh_token"])),
        ("response_types", orDefault (jget body "response_types") (.arr [.str "code"])),
        ("token_endpoint_auth_method", .str "client_secret_post")] ++ tail) k = dget tail k := by
    intro tail
    rcases hk with rfl | rfl | rfl <;> simp [dget]
  unfold registerClientInfo
  rw [jget_obj, List.append_assoc, List.append_assoc, hbase]
  rcases hk with rfl | rfl | rfl
  · have h23 : dget (optField body "redirect_uris" ++ optField body "scope") "client_name" =
        none := by
      rw [dget_append_left_none _ _ _ (dget_optField_ne body (by decide))]
      exact dget_optField_ne body (by decide)
    rw [dget_append_right_none _ _ _ h23, dget_optField_self]
  · rw [dget_append_left_none _ _ _ (dget_optField_ne body (by decide)),
      dget_append_right_none _ _ _ (dget_optField_ne body (by decide)), dget_optField_self]
  · rw [dget_append_left_none _ _ _ (dget_optField_ne body (by decide)),
      dget_append_left_none _ _ _ (dget_optField_ne body (by decide)), dget_optField_self]

/-! ### Claim theorems -/

/-- C5: for every `POST /authorize` request whose submitted password
differs from the configured server secret, the handler returns a terminal
error response (401, or 500 when no secret is configured at all) and the
entire store is exactly as it was before the request — in particular no
authorization code is created. -/
theorem c5_wrong_password_no_mutation (cfg : Config) (now : DateTime) (newCode : String)
    (form : AuthorizeForm) (s : Store) (h : form.password ≠ cfg.oauth_password) :
    (authorize_post cfg now newCode form s).1 = s ∧
    ((authorize_post cfg now newCode form s).2 = .errorHtml 500 ∨
     (authorize_post cfg now newCode form s).2 = .errorHtml 401) := by
  unfold authorize_post
  by_cases hp : cfg.oauth_password = "" <;> simp [hp, h]

/-- Witness for C5 at a concrete wrong-password request. -/
theorem c5_wrong_password_no_mutation_witness :
    ("guess" : String) ≠ "pw" ∧
    (authorize_post ⟨"pw", 3600⟩ ⟨2026, 1, 1, 0, 0, 0, 0⟩ "c"
        ⟨"A", "https://cb", "", "", "S256", "mcp:tools", "guess"⟩ emptyStore).1 = emptyStore ∧
    ((authorize_post ⟨"pw", 3600⟩ ⟨2026, 1, 1, 0, 0, 0, 0⟩ "c"
        ⟨"A", "https://cb", "", "", "S256", "mcp:tools", "guess"⟩ emptyStore).2 = .errorHtml 500 ∨
     (authorize_post ⟨"pw", 3600⟩ ⟨2026, 1, 1, 0, 0, 0, 0⟩ "c"
        ⟨"A", "https://cb", "", "", "S256", "mcp:tools", "guess"⟩ emptyStore).2 = .errorHtml 401) :=
  have h := c5_wrong_password_no_mutation ⟨"pw", 3600⟩ ⟨2026, 1, 1, 0, 0, 0, 0⟩ "c"
    ⟨"A", "https://cb", "", "", "S256", "mcp:tools", "guess"⟩ emptyStore (by decide)
  ⟨by decide, h.1, h.2⟩

/-- C7: the bearer-enforcement middleware forwards any request whose path
is neither exactly `/` nor prefixed by a public path straight to the inner
app, with no Authorization-header or token check (the result is `none`,
i.e. forwarded, for every header value, store and clock). -/
theorem c7_middleware_passthrough (req : MwRequest) (now : DateTime) (s : Store)
    (hroot : req.path ≠ "/")
    (hpub : (PUBLIC_PATHS.any fun p => pyStartsWith req.path p) = false) :
    dispatch req now s = none := by
  unfold dispatch
  by_cases hm : req.method = "OPTIONS" <;> simp [hm, hpub, hroot]

/-- Witness for C7: a non-root, non-public path with a garbage bearer
token and an empty token store is still forwarded. -/
theorem c7_middleware_passthrough_witness :
    ("/mcp/messages" : String) ≠ "/" ∧
    (PUBLIC_PATHS.any fun p => pyStartsWith "/mcp/messages" p) = false ∧
    dispatch ⟨"POST", "/mcp/messages", "Bearer not-a-real-token"⟩ ⟨2026, 1, 1, 0, 0, 0, 0⟩
      emptyStore = none :=
  ⟨by decide, by decide,
    c7_middleware_passthrough ⟨"POST", "/mcp/messages", "Bearer not-a-real-token"⟩
      ⟨2026, 1, 1, 0, 0, 0, 0⟩ emptyStore (by decide) (by decide)⟩

/-- C9: the persisted document always has exactly the three top-level maps
`registered_clients`, `access_tokens`, `refresh_tokens`, and its contents
are independent of the authorization-codes map. -/
theorem c9_no_codes_persisted (s : Store) (codes : List (String × AuthCodeData)) :
    jsonTopKeys (saveDoc s) = ["registered_clients", "access_tokens", "refresh_tokens"] ∧
    saveDoc { s with authorization_codes := codes } = saveDoc s :=
  ⟨rfl, rfl⟩

/-- C2 (counterexample): at the boundary instant `now == expires_at` the
middleware forwards the request (`none`) instead of rejecting it — the
expiry check `expires_at < now` is strict, so the claimed rejection at
`now == expires_at` is false. -/
theorem c2_boundary_counterexample :
    dget (⟨[], [], [("tok", ⟨"A", ⟨2026, 1, 1, 1, 0, 0, 0⟩, "mcp:tools"⟩)], []⟩ :
        Store).access_tokens "tok" = some ⟨"A", ⟨2026, 1, 1, 1, 0, 0, 0⟩, "mcp:tools"⟩ ∧
    dispatch ⟨"POST", "/", "Bearer " ++ "tok"⟩ ⟨2026, 1, 1, 1, 0, 0, 0⟩
      ⟨[], [], [("tok", ⟨"A", ⟨2026, 1, 1, 1, 0, 0, 0⟩, "mcp:tools"⟩)], []⟩ = none :=
  ⟨rfl, rfl⟩

/-- C2 (amended): a bearer request for the protected root path presenting
a stored token is rejected with 401 `invalid_token` exactly when
`expires_at < now` strictly; when `now ≤ expires_at` — in particular at
the boundary `now == expires_at`, and whenever the elapsed time is less
than the TTL — the request is forwarded. -/
theorem c2_expiry_amended (s : Store) (tok m : String) (td : AccessTokenData) (now : DateTime)
    (hm : m ≠ "OPTIONS")
    (hlook : dget s.access_tokens tok = some td) :
    (dtLt td.expires_at now = true →
      dispatch ⟨m, "/", "Bearer " ++ tok⟩ now s =
        some ⟨401, errJson "invalid_token" "Token expired"⟩) ∧
    (dtLt td.expires_at now = false →
      dispatch ⟨m, "/", "Bearer " ++ tok⟩ now s = none) := by
  have hpub : (PUBLIC_PATHS.any fun p => pyStartsWith "/" p) = false := by decide
  have hbear : pyStartsWith ("Bearer " ++ tok) "Bearer " = true := pyStartsWith_append _ _
  have hdrop : pyDrop ("Bearer " ++ tok) 7 = tok := pyDrop_bearer tok
  constructor <;> intro hexp <;>
    simp [dispatch, hm, hpub, hbear, hdrop, hlook, hexp]

/-- Witness for C2 (amended), at a token expiring 2026-01-01 01:00:00:
rejected one hour later, forwarded half an hour before. -/
theorem c2_expiry_amended_witness :
    dispatch ⟨"POST", "/", "Bearer " ++ "tok"⟩ ⟨2026, 1, 1, 2, 0, 0, 0⟩
        ⟨[], [], [("tok", ⟨"A", ⟨2026, 1, 1, 1, 0, 0, 0⟩, "mcp:tools"⟩)], []⟩ =
      some ⟨401, errJson "invalid_token" "Token expired"⟩ ∧
    dispatch ⟨"POST", "/", "Bearer " ++ "tok"⟩ ⟨2026, 1, 1, 0, 30, 0, 0⟩
        ⟨[], [], [("tok", ⟨"A", ⟨2026, 1, 1, 1, 0, 0, 0⟩, "mcp:tools"⟩)], []⟩ = none :=
  ⟨(c2_expiry_amended ⟨[], [], [("tok", ⟨"A", ⟨2026, 1, 1, 1, 0, 0, 0⟩, "mcp:tools"⟩)], []⟩
      "tok" "POST" ⟨"A", ⟨2026, 1, 1, 1, 0, 0, 0⟩, "mcp:tools"⟩ ⟨2026, 1, 1, 2, 0, 0, 0⟩
      (by decide) rfl).1 (by decide),
   (c2_expiry_amended ⟨[], [], [("tok", ⟨"A", ⟨2026, 1, 1, 1, 0, 0, 0⟩, "mcp:tools"⟩)], []⟩
      "tok" "POST" ⟨"A", ⟨2026, 1, 1, 1, 0, 0, 0⟩, "mcp:tools"⟩ ⟨2026, 1, 1, 0, 30, 0, 0⟩
      (by decide) rfl).2 (by decide)⟩

/-- C3 (counterexample): with an empty client registry and the correct
password, `POST /authorize` mints an authorization code bound to a
client_id that is absent from the registry — the claimed issuance
invariant fails at the `POST /authorize` handler. -/
theorem c3_counterexample :
    dget emptyStore.registered_clients "ghost-client" = none ∧
    dget (authorize_post ⟨"pw", 3600⟩ ⟨2026, 1, 1, 0, 0, 0, 0⟩ "code1"
        ⟨"ghost-client", "https://cb", "", "", "S256", "mcp:tools", "pw"⟩
        emptyStore).1.authorization_codes "code1" =
      some ⟨"ghost-client", "https://cb", "", "S256", "mcp:tools", ⟨2026, 1, 1, 0, 5, 0, 0⟩⟩ :=
  ⟨rfl, rfl⟩

/-- C3 (amended): `POST /authorize` never consults the registry — with the
correct password it mints a code bound to the submitted client_id whatever
the registered-clients map contains; registry membership is enforced only
by `GET /authorize`, which rejects unknown clients with an error page. -/
theorem c3_issuance_amended (cfg : Config) (now : DateTime) (newCode : String)
    (form : AuthorizeForm) (s : Store)
    (hcfg : cfg.oauth_password ≠ "") (hpw : form.password = cfg.oauth_password) :
    (authorize_post cfg now newCode form s).1.authorization_codes =
      dset s.authorization_codes newCode ⟨form.client_id, form.redirect_uri,
        form.code_challenge, form.code_challenge_method, form.scope, addSeconds now 300⟩ ∧
    (dget s.registered_clients form.client_id = none →
      authorize_get ⟨form.client_id, form.redirect_uri, form.state, form.code_challenge,
        form.code_challenge_method, form.scope⟩ s = .unknownClient) := by
  constructor
  · simp [authorize_post, hcfg, hpw]
  · intro hnone
    simp [authorize_get, hnone]

/-- Witness for C3 (amended) at a concrete unregistered client. -/
theorem c3_issuance_amended_witness :
    (authorize_post ⟨"pw", 3600⟩ ⟨2026, 1, 1, 0, 0, 0, 0⟩ "code1"
        ⟨"ghost", "https://cb", "st", "", "S256", "mcp:tools", "pw"⟩
        emptyStore).1.authorization_codes =
      dset emptyStore.authorization_codes "code1" ⟨"ghost", "https://cb", "", "S256",
        "mcp:tools", addSeconds ⟨2026, 1, 1, 0, 0, 0, 0⟩ 300⟩ ∧
    authorize_get ⟨"ghost", "https://cb", "st", "", "S256", "mcp:tools"⟩ emptyStore =
      .unknownClient :=
  have h := c3_issuance_amended ⟨"pw", 3600⟩ ⟨2026, 1, 1, 0, 0, 0, 0⟩ "code1"
    ⟨"ghost", "https://cb", "st", "", "S256", "mcp:tools", "pw"⟩ emptyStore (by decide) rfl
  ⟨h.1, h.2 rfl⟩

/-- C4 (counterexample): the claim quantifies `verify_pkce(v, S256(v)) =
true` over every code verifier while also requiring `false` on the empty
verifier; at `v = ""` the code returns `false`, refuting the universally
quantified first conjunct as stated. -/
theorem c4_empty_verifier_counterexample : verify_pkce "" (s256 "") = false := rfl

/-- C4 (amended): `verify_pkce(v, S256(v)) = true` for every nonempty
verifier; `verify_pkce(v, S256(w)) = false` for all verifiers whose
SHA-256 digests differ (distinctness of verifiers yields a differing
digest exactly up to SHA-256 collision-freeness, which is an extrinsic
cryptographic assumption, not a property of this code); and an empty
verifier or challenge always fails without raising. -/
theorem c4_pkce_amended :
    (∀ v : String, v ≠ "" → verify_pkce v (s256 v) = true) ∧
    (∀ v w : String, sha256Str v ≠ sha256Str w → verify_pkce v (s256 w) = false) ∧
    (∀ c : String, verify_pkce "" c = false) ∧
    (∀ v : String, verify_pkce v "" = false) := by
  refine ⟨?_, ?_, ?_, ?_⟩
  · intro v hv
    unfold verify_pkce
    rw [if_neg (by push_neg; exact ⟨hv, s256_ne_empty v⟩)]
    simp
  · intro v w hd
    unfold verify_pkce
    by_cases hv : v = ""
    · simp [hv]
    · rw [if_neg (by push_neg; exact ⟨hv, s256_ne_empty w⟩)]
      simp only [beq_eq_false_iff_ne, ne_eq]
      intro he
      exact hd (s256_inj he)
  · intro c
    simp [verify_pkce]
  · intro v
    simp [verify_pkce]

/-- Witness for C4 (amended) at concrete verifiers. -/
theorem c4_pkce_amended_witness :
    verify_pkce "test-verifier" (s256 "test-verifier") = true ∧
    verify_pkce "aaa" (s256 "bbb") = false ∧
    verify_pkce "" (s256 "bbb") = false ∧
    verify_pkce "aaa" "" = false :=
  ⟨c4_pkce_amended.1 "test-verifier" (by decide),
   c4_pkce_amended.2.1 "aaa" "bbb" (by decide),
   c4_pkce_amended.2.2.1 (s256 "bbb"),
   c4_pkce_amended.2.2.2 "aaa"⟩

set_option maxRecDepth 100000 in
/-- C1 (counterexample): an exchange attempt that fails PKCE returns
`invalid_grant` but leaves the store — including the looked-up code —
unchanged, and a second exchange of the same code with the correct
verifier then succeeds (HTTP 200): the code was still redeemable after a
failed PKCE check. -/
theorem c1_counterexample :
    (token_endpoint ⟨"pw", 3600⟩ ⟨2026, 1, 1, 0, 0, 0, 0⟩ "t1" "r1"
        ⟨"authorization_code", "c", "wrong-verifier", "A", ""⟩
        ⟨[], [("c", ⟨"A", "https://cb", s256 "vrf", "S256", "mcp:tools",
          ⟨2026, 1, 1, 0, 5, 0, 0⟩⟩)], [], []⟩).2 =
      ⟨400, errJson "invalid_grant" "PKCE verification failed"⟩ ∧
    (token_endpoint ⟨"pw", 3600⟩ ⟨2026, 1, 1, 0, 0, 0, 0⟩ "t1" "r1"
        ⟨"authorization_code", "c", "wrong-verifier", "A", ""⟩
        ⟨[], [("c", ⟨"A", "https://cb", s256 "vrf", "S256", "mcp:tools",
          ⟨2026, 1, 1, 0, 5, 0, 0⟩⟩)], [], []⟩).1 =
      ⟨[], [("c", ⟨"A", "https://cb", s256 "vrf", "S256", "mcp:tools",
        ⟨2026, 1, 1, 0, 5, 0, 0⟩⟩)], [], []⟩ ∧
    (token_endpoint ⟨"pw", 3600⟩ ⟨2026, 1, 1, 0, 0, 0, 0⟩ "t2" "r2"
        ⟨"authorization_code", "c", "vrf", "A", ""⟩
        (token_endpoint ⟨"pw", 3600⟩ ⟨2026, 1, 1, 0, 0, 0, 0⟩ "t1" "r1"
          ⟨"authorization_code", "c", "wrong-verifier", "A", ""⟩
          ⟨[], [("c", ⟨"A", "https://cb", s256 "vrf", "S256", "mcp:tools",
            ⟨2026, 1, 1, 0, 5, 0, 0⟩⟩)], [], []⟩).1).2.status = 200 :=
  ⟨rfl, rfl, rfl⟩

/-- C1 (amended): the token endpoint deletes an authorization code only on
the success and expiry paths — after a successful or expired exchange, a
replay of the same code yields `invalid_grant`; but a client_id-mismatched
or PKCE-failed attempt returns `invalid_grant` while leaving the store
(and hence the code) unchanged, so such a code remains redeemable. -/
theorem c1_single_use_amended (cfg : Config) (now now2 : DateTime) (a r a2 r2 : String)
    (req req2 : TokenRequest) (s : Store) (cd : AuthCodeData)
    (hg : req.grant_type = "authorization_code")
    (hlook : dget s.authorization_codes req.code = some cd)
    (hg2 : req2.grant_type = "authorization_code") (hc2 : req2.code = req.code) :
    (dtLt cd.expires_at now = true →
      (token_endpoint cfg now a r req s).2 =
        ⟨400, errJson "invalid_grant" "Authorization code expired"⟩ ∧
      (token_endpoint cfg now2 a2 r2 req2 (token_endpoint cfg now a r req s).1).2 =
        ⟨400, errJson "invalid_grant" "Invalid authorization code"⟩) ∧
    (dtLt cd.expires_at now = false → cd.client_id = req.client_id →
      (cd.code_challenge = "" ∨ verify_pkce req.code_verifier cd.code_challenge = true) →
      (token_endpoint cfg now a r req s).2.status = 200 ∧
      (token_endpoint cfg now2 a2 r2 req2 (token_endpoint cfg now a r req s).1).2 =
        ⟨400, errJson "invalid_grant" "Invalid authorization code"⟩) ∧
    (dtLt cd.expires_at now = false → cd.client_id ≠ req.client_id →
      (token_endpoint cfg now a r req s).1 = s) ∧
    (dtLt cd.expires_at now = false → cd.client_id = req.client_id →
      cd.code_challenge ≠ "" → verify_pkce req.code_verifier cd.code_challenge = false →
      (token_endpoint cfg now a r req s).1 = s) := by
  refine ⟨?_, ?_, ?_, ?_⟩
  · intro hexp
    constructor
    · simp [token_endpoint, hg, hlook, hexp]
    · simp [token_endpoint, hg, hlook, hexp, hg2, hc2, dget_ddel_self]
  · intro hexp hcid hpk
    rcases hpk with hch | hver
    · constructor
      · simp [token_endpoint, hg, hlook, hexp, hcid, hch]
      · simp [token_endpoint, hg, hlook, hexp, hcid, hch, hg2, hc2, dget_ddel_self]
    · constructor
      · simp [token_endpoint, hg, hlook, hexp, hcid, hver]
      · simp [token_endpoint, hg, hlook, hexp, hcid, hver, hg2, hc2, dget_ddel_self]
  · intro hexp hne
    simp [token_endpoint, hg, hlook, hexp, hne]
  · intro hexp hcid hch hver
    simp [token_endpoint, hg, hlook, hexp, hcid, hch, hver]

/-- Witness for C1 (amended): an expired code is deleted and its replay is
`invalid_grant`; a successful exchange deletes the code and its replay is
`invalid_grant`. -/
theorem c1_single_use_amended_witness :
    ((token_endpoint ⟨"pw", 60⟩ ⟨2026, 1, 1, 1, 0, 0, 0⟩ "t1" "r1"
        ⟨"authorization_code", "c", "", "A", ""⟩
        ⟨[], [("c", ⟨"A", "https://cb", "", "S256", "mcp:tools", ⟨2026, 1, 1, 0, 5, 0, 0⟩⟩)],
          [], []⟩).2 =
      ⟨400, errJson "invalid_grant" "Authorization code expired"⟩ ∧
     (token_endpoint ⟨"pw", 60⟩ ⟨2026, 1, 1, 1, 0, 0, 0⟩ "t2" "r2"
        ⟨"authorization_code", "c", "", "A", ""⟩
        (token_endpoint ⟨"pw", 60⟩ ⟨2026, 1, 1, 1, 0, 0, 0⟩ "t1" "r1"
          ⟨"authorization_code", "c", "", "A", ""⟩
          ⟨[], [("c", ⟨"A", "https://cb", "", "S256", "mcp:tools", ⟨2026, 1, 1, 0, 5, 0, 0⟩⟩)],
            [], []⟩).1).2 =
      ⟨400, errJson "invalid_grant" "Invalid authorization code"⟩) ∧
    ((token_endpoint ⟨"pw", 60⟩ ⟨2026, 1, 1, 0, 0, 0, 0⟩ "t1" "r1"
        ⟨"authorization_code", "c", "", "A", ""⟩
        ⟨[], [("c", ⟨"A", "https://cb", "", "S256", "mcp:tools", ⟨2026, 1, 1, 0, 5, 0, 0⟩⟩)],
          [], []⟩).2.status = 200 ∧
     (token_endpoint ⟨"pw", 60⟩ ⟨2026, 1, 1, 0, 0, 0, 0⟩ "t2" "r2"
        ⟨"authorization_code", "c", "", "A", ""⟩
        (token_endpoint ⟨"pw", 60⟩ ⟨2026, 1, 1, 0, 0, 0, 0⟩ "t1" "r1"
          ⟨"authorization_code", "c", "", "A", ""⟩
          ⟨[], [("c", ⟨"A", "https://cb", "", "S256", "mcp:tools", ⟨2026, 1, 1, 0, 5, 0, 0⟩⟩)],
            [], []⟩).1).2 =
      ⟨400, errJson "invalid_grant" "Invalid authorization code"⟩) :=
  ⟨(c1_single_use_amended ⟨"pw", 60⟩ ⟨2026, 1, 1, 1, 0, 0, 0⟩ ⟨2026, 1, 1, 1, 0, 0, 0⟩
      "t1" "r1" "t2" "r2" ⟨"authorization_code", "c", "", "A", ""⟩
      ⟨"authorization_code", "c", "", "A", ""⟩
      ⟨[], [("c", ⟨"A", "https://cb", "", "S256", "mcp:tools", ⟨2026, 1, 1, 0, 5, 0, 0⟩⟩)],
        [], []⟩
      ⟨"A", "https://cb", "", "S256", "mcp:tools", ⟨2026, 1, 1, 0, 5, 0, 0⟩⟩
      rfl rfl rfl rfl).1 (by decide),
   (c1_single_use_amended ⟨"pw", 60⟩ ⟨2026, 1, 1, 0, 0, 0, 0⟩ ⟨2026, 1, 1, 0, 0, 0, 0⟩
      "t1" "r1" "t2" "r2" ⟨"authorization_code", "c", "", "A", ""⟩
      ⟨"authorization_code", "c", "", "A", ""⟩
      ⟨[], [("c", ⟨"A", "https://cb", "", "S256", "mcp:tools", ⟨2026, 1, 1, 0, 5, 0, 0⟩⟩)],
        [], []⟩
      ⟨"A", "https://cb", "", "S256", "mcp:tools", ⟨2026, 1, 1, 0, 5, 0, 0⟩⟩
      rfl rfl rfl rfl).2.1 (by decide) rfl (Or.inl rfl)⟩

/-- C6: a successful refresh_token exchange mints exactly one new access
token (the sole store change is one `access_tokens` insertion); the
refresh-token map, the codes and the clients are untouched, so the
presented refresh token keeps its client_id and scope and an immediate
second refresh with it succeeds again; the success response carries no new
refresh token. -/
theorem c6_refresh_frame (cfg : Config) (now now2 : DateTime) (a r a2 r2 : String)
    (req : TokenRequest) (s : Store) (td : RefreshTokenData)
    (hg : req.grant_type = "refresh_token")
    (hlook : dget s.refresh_tokens req.refresh_token = some td)
    (hcid : td.client_id = req.client_id) :
    (token_endpoint cfg now a r req s).1.refresh_tokens = s.refresh_tokens ∧
    (token_endpoint cfg now a r req s).1.authorization_codes = s.authorization_codes ∧
    (token_endpoint cfg now a r req s).1.registered_clients = s.registered_clients ∧
    (token_endpoint cfg now a r req s).1.access_tokens =
      dset s.access_tokens a ⟨req.client_id, addSeconds now cfg.token_expiry_seconds, td.scope⟩ ∧
    (token_endpoint cfg now a r req s).2 =
      ⟨200, .obj [("access_token", .str a), ("token_type", .str "Bearer"),
        ("expires_in", .num (cfg.token_expiry_seconds : Int)), ("scope", .str td.scope)]⟩ ∧
    (token_endpoint cfg now2 a2 r2 req (token_endpoint cfg now a r req s).1).2 =
      ⟨200, .obj [("access_token", .str a2), ("token_type", .str "Bearer"),
        ("expires_in", .num (cfg.token_expiry_seconds : Int)), ("scope", .str td.scope)]⟩ := by
  refine ⟨?_, ?_, ?_, ?_, ?_, ?_⟩ <;> simp [token_endpoint, hg, hlook, hcid]

/-- Witness for C6 at a concrete store with one refresh token. -/
theorem c6_refresh_frame_witness :
    (token_endpoint ⟨"pw", 3600⟩ ⟨2026, 1, 1, 0, 0, 0, 0⟩ "newtok" "unusedRt"
        ⟨"refresh_token", "", "", "A", "rt"⟩
        ⟨[], [], [], [("rt", ⟨"A", "mcp:tools"⟩)]⟩).1.refresh_tokens =
      [("rt", ⟨"A", "mcp:tools"⟩)] ∧
    (token_endpoint ⟨"pw", 3600⟩ ⟨2026, 1, 2, 0, 0, 0, 0⟩ "newtok2" "unusedRt2"
        ⟨"refresh_token", "", "", "A", "rt"⟩
        (token_endpoint ⟨"pw", 3600⟩ ⟨2026, 1, 1, 0, 0, 0, 0⟩ "newtok" "unusedRt"
          ⟨"refresh_token", "", "", "A", "rt"⟩
          ⟨[], [], [], [("rt", ⟨"A", "mcp:tools"⟩)]⟩).1).2 =
      ⟨200, .obj [("access_token", .str "newtok2"), ("token_type", .str "Bearer"),
        ("expires_in", .num (3600 : Int)), ("scope", .str "mcp:tools")]⟩ :=
  have h := c6_refresh_frame ⟨"pw", 3600⟩ ⟨2026, 1, 1, 0, 0, 0, 0⟩ ⟨2026, 1, 2, 0, 0, 0, 0⟩
    "newtok" "unusedRt" "newtok2" "unusedRt2" ⟨"refresh_token", "", "", "A", "rt"⟩
    ⟨[], [], [], [("rt", ⟨"A", "mcp:tools"⟩)]⟩ ⟨"A", "mcp:tools"⟩ rfl rfl rfl
  ⟨h.1, h.2.2.2.2.2⟩

/-- C8: persistence round-trips the store — saving and then loading into a
fresh (restarted) process restores the registered clients, access tokens
and refresh tokens exactly, each `expires_at` surviving the ISO-8601
serialization losslessly. (The hypotheses state that the store is one the
process can actually hold: datetimes within Python's `datetime` ranges and
dict keys unique.) -/
theorem c8_persistence_roundtrip (s : Store)
    (hvalid : ∀ p ∈ s.access_tokens, isValidDT p.2.expires_at = true)
    (hck : (s.registered_clients.map Prod.fst).Nodup)
    (hak : (s.access_tokens.map Prod.fst).Nodup)
    (hrk : (s.refresh_tokens.map Prod.fst).Nodup) :
    loadStore (saveDoc s) emptyStore =
      ⟨s.registered_clients, [], s.access_tokens, s.refresh_tokens⟩ := by
  have hats := mapMEntries_roundtrip accessTokenToJson accessTokenOfJson s.access_tokens
    (fun p hp => accessToken_roundtrip p.2 (hvalid p hp))
  have hrts := mapMEntries_roundtrip refreshTokenToJson refreshTokenOfJson s.refresh_tokens
    (fun p _ => refreshToken_roundtrip p.2)
  unfold loadStore saveDoc parseDoc
  simp [jget, dget, hats, hrts, dupdate_nil _ hck, dupdate_nil _ hak, dupdate_nil _ hrk,
    emptyStore]

/-- Witness for C8 at a concrete populated store (one client, one pending
authorization code, two access tokens — one with microseconds — and one
refresh token); the code is dropped, everything else restored. -/
theorem c8_persistence_roundtrip_witness :
    loadStore (saveDoc ⟨[("cid", .obj [("client_id", .str "cid")])],
        [("c", ⟨"A", "https://cb", "", "S256", "mcp:tools", ⟨2026, 1, 1, 0, 5, 0, 0⟩⟩)],
        [("tok", ⟨"A", ⟨2026, 1, 2, 3, 4, 5, 123456⟩, "mcp:tools"⟩),
         ("tok2", ⟨"B", ⟨2025, 6, 7, 8, 9, 10, 0⟩, "x"⟩)],
        [("rt", ⟨"A", "mcp:tools"⟩)]⟩) emptyStore =
      ⟨[("cid", .obj [("client_id", .str "cid")])], [],
       [("tok", ⟨"A", ⟨2026, 1, 2, 3, 4, 5, 123456⟩, "mcp:tools"⟩),
        ("tok2", ⟨"B", ⟨2025, 6, 7, 8, 9, 10, 0⟩, "x"⟩)],
       [("rt", ⟨"A", "mcp:tools"⟩)]⟩ :=
  c8_persistence_roundtrip ⟨[("cid", .obj [("client_id", .str "cid")])],
      [("c", ⟨"A", "https://cb", "", "S256", "mcp:tools", ⟨2026, 1, 1, 0, 5, 0, 0⟩⟩)],
      [("tok", ⟨"A", ⟨2026, 1, 2, 3, 4, 5, 123456⟩, "mcp:tools"⟩),
       ("tok2", ⟨"B", ⟨2025, 6, 7, 8, 9, 10, 0⟩, "x"⟩)],
      [("rt", ⟨"A", "mcp:tools"⟩)]⟩
    (by decide) (by decide) (by decide) (by decide)

/-- C10: every registration returns 201 with the freshly generated
client_id/client_secret; `grant_types` and `response_types` take their
RFC defaults when the request omits them; and each optional field
(`client_name`, `redirect_uris`, `scope`) appears in the response exactly
when the request supplied a non-empty value for it — absent optionals are
omitted, never emitted as `null`. (The typing hypotheses say the optional
fields, when present, are strings or arrays as the protocol prescribes; on
those, "non-empty" and Python truthiness coincide.) -/
theorem c10_register_response (body : Json) (cid sec : String) (ia : Int) (s : Store)
    (hname : typedOptional (jget body "client_name") = true)
    (huris : typedOptional (jget body "redirect_uris") = true)
    (hscope : typedOptional (jget body "scope") = true) :
    (register_client body cid sec ia s).2.status = 201 ∧
    jget (register_client body cid sec ia s).2.body "client_id" = some (.str cid) ∧
    jget (register_client body cid sec ia s).2.body "client_secret" = some (.str sec) ∧
    (jget body "grant_types" = none →
      jget (register_client body cid sec ia s).2.body "grant_types" =
        some (.arr [.str "authorization_code", .str "refresh_token"])) ∧
    (jget body "response_types" = none →
      jget (register_client body cid sec ia s).2.body "response_types" =
        some (.arr [.str "code"])) ∧
    (∀ k, (k = "client_name" ∨ k = "redirect_uris" ∨ k = "scope") →
      ((∃ v, jget (register_client body cid sec ia s).2.body k = some v) ↔
        (∃ v, jget body k = some v ∧ jsonNonEmptyVal v = true))) ∧
    (∀ k, (k = "client_name" ∨ k = "redirect_uris" ∨ k = "scope") →
      jget (register_client body cid sec ia s).2.body k ≠ some .null) := by
  refine ⟨rfl, ?_, ?_, ?_, ?_, ?_, ?_⟩
  · simp [register_client, registerClientInfo, jget_obj, dget]
  · simp [register_client, registerClientInfo, jget_obj, dget]
  · intro hgt
    simp [register_client, registerClientInfo, jget_obj, dget, hgt, orDefault]
  · intro hrt
    simp [register_client, registerClientInfo, jget_obj, dget, hrt, orDefault]
  · intro k hk
    have hopt := jget_registerClientInfo_opt body cid sec ia k hk
    show (∃ v, jget (registerClientInfo body cid sec ia) k = some v) ↔ _
    rw [hopt]
    have htyped : typedOptional (jget body k) = true := by
      rcases hk with rfl | rfl | rfl
      · exact hname
      · exact huris
      · exact hscope
    cases hv : jget body k with
    | none => simp
    | some v =>
      rw [hv] at htyped
      cases v with
      | str str0 =>
        by_cases hs : str0 = ""
        · simp [hs, jsonTruthy, jsonNonEmptyVal, String.isEmpty_iff]
        · have hie : str0.isEmpty = false := by
            cases hb : str0.isEmpty
            · rfl
            · exact absurd ((String.isEmpty_iff str0).mp (by simp [hb])) hs
          simp [hs, jsonTruthy, jsonNonEmptyVal, hie]
      | arr l =>
        by_cases hl : l.isEmpty <;> simp [hl, jsonTruthy, jsonNonEmptyVal]
      | null => simp [typedOptional] at htyped
      | bool b => simp [typedOptional] at htyped
      | num n => simp [typedOptional] at htyped
      | obj fs => simp [typedOptional] at htyped
  · intro k hk
    have hopt := jget_registerClientInfo_opt body cid sec ia k hk
    show jget (registerClientInfo body cid sec ia) k ≠ some .null
    rw [hopt]
    cases hv : jget body k with
    | none => simp
    | some v =>
      cases v <;> simp [jsonTruthy]

/-- Witness for C10 at a concrete registration request supplying a
nonempty `client_name` and `redirect_uris` but an empty `scope`. -/
theorem c10_register_response_witness :
    (register_client (.obj [("client_name", .str "My App"), ("scope", .str ""),
        ("redirect_uris", .arr [.str "https://cb"])]) "cid1" "sec1" 5 emptyStore).2.status =
      201 ∧
    jget (register_client (.obj [("client_name", .str "My App"), ("scope", .str ""),
        ("redirect_uris", .arr [.str "https://cb"])]) "cid1" "sec1" 5
        emptyStore).2.body "grant_types" =
      some (.arr [.str "authorization_code", .str "refresh_token"]) ∧
    ((∃ v, jget (register_client (.obj [("client_name", .str "My App"), ("scope", .str ""),
        ("redirect_uris", .arr [.str "https://cb"])]) "cid1" "sec1" 5
        emptyStore).2.body "client_name" = some v) ↔
      (∃ v, jget (.obj [("client_name", .str "My App"), ("scope", .str ""),
        ("redirect_uris", .arr [.str "https://cb"])] : Json) "client_name" = some v ∧
        jsonNonEmptyVal v = true)) ∧
    ((∃ v, jget (register_client (.obj [("client_name", .str "My App"), ("scope", .str ""),
        ("redirect_uris", .arr [.str "https://cb"])]) "cid1" "sec1" 5
        emptyStore).2.body "scope" = some v) ↔
      (∃ v, jget (.obj [("client_name", .str "My App"), ("scope", .str ""),
        ("redirect_uris", .arr [.str "https://cb"])] : Json) "scope" = some v ∧
        jsonNonEmptyVal v = true)) ∧
    jget (register_client (.obj [("client_name", .str "My App"), ("scope", .str ""),
        ("redirect_uris", .arr [.str "https://cb"])]) "cid1" "sec1" 5
        emptyStore).2.body "scope" ≠ some .null :=
  have h := c10_register_response (.obj [("client_name", .str "My App"), ("scope", .str ""),
    ("redirect_uris", .arr [.str "https://cb"])]) "cid1" "sec1" 5 emptyStore
    (by decide) (by decide) (by decide)
  ⟨h.1, h.2.2.2.1 rfl, h.2.2.2.2.2.1 "client_name" (Or.inl rfl),
   h.2.2.2.2.2.1 "scope" (Or.inr (Or.inr rfl)), h.2.2.2.2.2.2 "scope" (Or.inr (Or.inr rfl))⟩

end MemosMcp
